import Mathlib

/-!
Verification development for the Steam API dispatch engine of
bitlbee-steam (`steam/steam-api.c`, `steam/steam-json.c`).

The C code is shallowly embedded: each parser/dispatcher function is a
Lean function over an explicit JSON value tree and explicit session /
call-context state.  `gint64` arithmetic is modelled as two's-complement
wraparound on `Int` (`wrap64`).  Array reads through a possibly
out-of-bounds index are modelled with `Option` (`none` marks a read past
the end of a C array, which is undefined behaviour in the source).

Constants and small helpers living in headers that are not part of the
sources at hand (`steam-api.h`, `steam-auth.c`, `steam-http.c`) are
modelled from the specification and marked as such in their doc
comments.
-/

/-- JSON value tree, mirroring the `json_value` union of the json-parser
library consumed by `steam-json.c` (object, array, integer, string,
boolean, double and null nodes; doubles are irrelevant to the claims and
omitted from the constructors actually used by the parsers). -/
inductive JVal where
  | jstr  (s : String)
  | jint  (n : Int)
  | jbool (b : Bool)
  | jobj  (fields : List (String × JVal))
  | jarr  (elems : List JVal)
  | jnull

/-- Modelled from the spec: `json_o_get` (object member lookup by key,
provided by the JSON collaborator's header): the first member of an
object whose name matches exactly, `NULL` otherwise or on non-objects. -/
def json_o_get : JVal → String → Option JVal
  | .jobj fields, name => (fields.find? (fun p => p.1 = name)).map (fun p => p.2)
  | _, _ => none

/-- `steam_json_str`: member must exist, be a string, and be non-empty
(`u.string.length < 1` is treated as absent). -/
def steam_json_str (json : JVal) (name : String) : Option String :=
  match json_o_get json name with
  | some (.jstr s) => if 1 ≤ s.length then some s else none
  | _ => none

/-- `steam_json_int`: member must exist and have integer type; the
out-parameter defaults to `0` otherwise (see `steam_json_int_d`). -/
def steam_json_int (json : JVal) (name : String) : Option Int :=
  match json_o_get json name with
  | some (.jint n) => some n
  | _ => none

/-- The value left in `steam_json_int`'s out-parameter: the integer when
present, `0` otherwise. -/
def steam_json_int_d (json : JVal) (name : String) : Int :=
  (steam_json_int json name).getD 0

/-- `steam_json_bool`: `FALSE` unless the member exists with boolean
type, in which case its value. -/
def steam_json_bool (json : JVal) (name : String) : Bool :=
  match json_o_get json name with
  | some (.jbool b) => b
  | _ => false

/-- `steam_json_val(json, name, json_array, &jv)`: the member as an
array, if it exists with array type. -/
def steam_json_arr (json : JVal) (name : String) : Option (List JVal) :=
  match json_o_get json name with
  | some (.jarr l) => some l
  | _ => none

/-- ASCII lower-casing of one character, as used by
`g_ascii_strcasecmp`. -/
def g_ascii_lower (c : Char) : Char :=
  if 'A' ≤ c ∧ c ≤ 'Z' then Char.ofNat (c.toNat + 32) else c

/-- Equality under `g_ascii_strcasecmp` (ASCII-case-insensitive string
comparison). -/
def ascii_caseeq (s t : String) : Bool :=
  s.data.map g_ascii_lower = t.data.map g_ascii_lower

/-- `steam_json_scmp`: returns whether the member is a non-empty string
case-insensitively equal to `mtch` (a `NULL` match never compares
equal), together with the string left in the out-parameter (`none`
models the `NULL` left there when the member is absent or empty). -/
def steam_json_scmp (json : JVal) (name : String) (mtch : Option String) :
    Bool × Option String :=
  match steam_json_str json name with
  | none => (false, none)
  | some s =>
      (match mtch with
       | some m => ascii_caseeq m s
       | none => false,
       some s)

/-- Two's-complement wraparound of `Int` into the `gint64` range
`[-2^63, 2^63)`, used to model C `gint64` addition/subtraction. -/
def wrap64 (x : Int) : Int :=
  (x + 2 ^ 63) % 2 ^ 64 - 2 ^ 63

/-- Saturation into the `gint64` range, as `g_ascii_strtoll` clamps
out-of-range literals to `G_MAXINT64` / `G_MININT64`. -/
def clamp64 (v : Int) : Int :=
  if v < -(2 ^ 63) then -(2 ^ 63)
  else if v > 2 ^ 63 - 1 then 2 ^ 63 - 1
  else v

/-- Accumulate a decimal digit run, stopping at the first non-digit. -/
def strtoll_digits : List Char → Int → Int
  | c :: cs, acc =>
      if c.isDigit then strtoll_digits cs (acc * 10 + ((c.toNat : Int) - 48))
      else acc
  | [], acc => acc

/-- `g_ascii_strtoll(s, NULL, 10)`: optional sign, then the longest
leading decimal digit run (`0` when there is none), clamped to the
`gint64` range. -/
def g_ascii_strtoll (s : String) : Int :=
  match s.data with
  | '-' :: cs => clamp64 (- strtoll_digits cs 0)
  | '+' :: cs => clamp64 (strtoll_digits cs 0)
  | cs => clamp64 (strtoll_digits cs 0)

/-- Modelled from the spec: the fixed base offset `STEAM_API_STEAMID`
between external numeric identities and internal account ids, defined in
the missing `steam-api.h` header ("external numeric identity = internal
account id + a fixed base offset"). -/
def STEAM_API_STEAMID : Int := 76561197960265728

/-- `steam_api_accountid_int`: `steamid - STEAM_API_STEAMID` in `gint64`
arithmetic. -/
def steam_api_accountid_int (steamid : Int) : Int :=
  wrap64 (steamid - STEAM_API_STEAMID)

/-- `steam_api_accountid_str`: `g_return_val_if_fail` yields `0` on
`NULL`, otherwise the string is parsed with `g_ascii_strtoll` and
converted. -/
def steam_api_accountid_str (steamid : Option String) : Int :=
  match steamid with
  | none => 0
  | some s => steam_api_accountid_int (g_ascii_strtoll s)

/-- `steam_api_steamid_int`: `accid + STEAM_API_STEAMID` in `gint64`
arithmetic. -/
def steam_api_steamid_int (accid : Int) : Int :=
  wrap64 (accid + STEAM_API_STEAMID)

/-- Modelled from the spec: the number of call-type enumerators before
the `STEAM_API_TYPE_LAST` sentinel in the missing `steam-api.h` header;
the designated-initializer table in `steam_api_type_str` populates all
sixteen of them. -/
def STEAM_API_TYPE_LAST : Int := 16

/-- The static label table of `steam_api_type_str`, indexed by call-type
enumerator (sixteen entries, one per call type before the sentinel). -/
def steam_api_type_strs : List String :=
  ["Authentication", "Authentication (redirect)", "ChatLog",
   "Friend Acceptance", "Friend Addition", "Friend Ignore",
   "Friend Removal", "Friend Search", "Friends", "Key", "Logon",
   "Relogon", "Logoff", "Message", "Polling", "Summary"]

/-- A C array read `strs[i]` on an array of `n` cells: `some` the cell
for `0 ≤ i < n`, and `none` for a read outside the allocation
(undefined behaviour in the source). -/
def c_array_get (strs : List String) (i : Int) : Option String :=
  if h : 0 ≤ i ∧ i.toNat < strs.length then some (strs.get ⟨i.toNat, h.2⟩)
  else none

/-- `steam_api_type_str`: the guard sends `type < 0` and
`type > STEAM_API_TYPE_LAST` to `"Generic"`; any other value is used to
index the sixteen-entry static table (so `type = STEAM_API_TYPE_LAST`
reaches the table read one past its end, modelled as `none`). -/
def steam_api_type_str (type : Int) : Option String :=
  if type < 0 ∨ type > STEAM_API_TYPE_LAST then some "Generic"
  else c_array_get steam_api_type_strs type

/-- Modelled from the spec: the number of message-type enumerators
before the `STEAM_API_MESSAGE_TYPE_LAST` sentinel in the missing
`steam-api.h` header; the table in `steam_api_message_type_str`
populates all six. -/
def STEAM_API_MESSAGE_TYPE_LAST : Int := 6

/-- The static label table of `steam_api_message_type_str`, indexed by
message-type enumerator. -/
def steam_api_message_type_strs : List String :=
  ["saytext", "emote", "leftconversation", "personarelationship",
   "personastate", "typing"]

/-- `steam_api_message_type_str`: out-of-range values (negative or above
the sentinel) give `""`; any other value indexes the six-entry table (so
`type = STEAM_API_MESSAGE_TYPE_LAST` reaches the read one past the
table's end, modelled as `none`). -/
def steam_api_message_type_str (type : Int) : Option String :=
  if type < 0 ∨ type > STEAM_API_MESSAGE_TYPE_LAST then some ""
  else c_array_get steam_api_message_type_strs type

/-- Named call-type enumerator codes (modelled from the spec: the
enumerator order of the missing `steam-api.h`; only distinctness and the
label table association matter to the claims). -/
def STEAM_API_TYPE_AUTH : Int := 0

/-- Call-type enumerator for the authentication redirect. -/
def STEAM_API_TYPE_AUTH_RDIR : Int := 1

/-- Call-type enumerator for relogon. -/
def STEAM_API_TYPE_RELOGON : Int := 11

/-- Call-type enumerator for message sends. -/
def STEAM_API_TYPE_MESSAGE : Int := 13

/-- Call-type enumerator for long polls. -/
def STEAM_API_TYPE_POLL : Int := 14

/-- Named message-type enumerator codes, in the label table's order. -/
def STEAM_API_MESSAGE_TYPE_SAYTEXT : Int := 0

/-- Message-type enumerator for emotes. -/
def STEAM_API_MESSAGE_TYPE_EMOTE : Int := 1

/-- Message-type enumerator for leaving a conversation. -/
def STEAM_API_MESSAGE_TYPE_LEFT_CONV : Int := 2

/-- Message-type enumerator for relationship changes. -/
def STEAM_API_MESSAGE_TYPE_RELATIONSHIP : Int := 3

/-- Message-type enumerator for presence-state changes. -/
def STEAM_API_MESSAGE_TYPE_STATE : Int := 4

/-- Message-type enumerator for typing notifications. -/
def STEAM_API_MESSAGE_TYPE_TYPING : Int := 5

/-- `steam_api_message_type_from_str`'s scan: first index whose label is
ASCII-case-insensitively equal to the argument, else the sentinel. -/
def message_type_from_str_go : List String → Nat → String → Int
  | [], _, _ => STEAM_API_MESSAGE_TYPE_LAST
  | s :: rest, i, t =>
      if ascii_caseeq t s then (i : Int)
      else message_type_from_str_go rest (i + 1) t

/-- `steam_api_message_type_from_str`: `NULL` gives the sentinel,
otherwise the first matching label index (sentinel when none match). -/
def steam_api_message_type_from_str : Option String → Int
  | none => STEAM_API_MESSAGE_TYPE_LAST
  | some t => message_type_from_str_go steam_api_message_type_strs 0 t

/-- Error codes of the `STEAM_API_ERROR` domain (modelled from the spec:
the enumerators live in the missing `steam-api.h`; only their
distinctness matters).  `.PARSER` stands for the `STEAM_JSON_ERROR`
parser domain of `steam-json.c`, and `.TRANSPORT` for errors propagated
unchanged from the transport layer. -/
inductive SteamApiError where
  | AUTH | AUTH_CAPTCHA | AUTH_GUARD
  | FRIEND_ACCEPT | FRIEND_ADD | FRIEND_IGNORE | FRIEND_REMOVE
  | KEY | LOGOFF | LOGON | LOGON_EXPIRED | RELOGON | POLL
  | PARSER | TRANSPORT
deriving DecidableEq, Repr

/-- A `GError`: domain/code plus message. -/
structure GErr where
  code : SteamApiError
  msg : String
deriving DecidableEq, Repr

/-- Relationship classification of a summary (modelled from the spec:
`SteamFriendRelation` of the missing `steam-friend.h`; zero-initialised
summaries carry the `none` classification). -/
inductive SteamFriendRelation where
  | NONE | FRIEND | IGNORE
deriving DecidableEq, Repr

/-- A friend/profile summary (`SteamFriendSummary`).  The extra `tag`
field models pointer identity of the allocation (the index of the entry
that created it), so that "same instance" claims are expressible in the
embedding. -/
structure SteamFriendSummary where
  steamid : Option String
  nick : Option String := none
  fullname : Option String := none
  game : Option String := none
  server : Option String := none
  state : Int := 0
  action : Int := 0
  relation : SteamFriendRelation := .NONE
  tag : Nat := 0
deriving DecidableEq, Repr

/-- Modelled from the spec: `steam_friend_summary_new` (in the missing
`steam-friend.c`) allocates a zeroed summary holding a copy of the given
identity string. -/
def steam_friend_summary_new (steamid : Option String) (tag : Nat) :
    SteamFriendSummary :=
  { steamid := steamid, tag := tag }

/-- `steam_friend_summary_json`: copies the profile fields of one
returned player object into a summary in place. -/
def steam_friend_summary_json (smry : SteamFriendSummary) (json : JVal) :
    SteamFriendSummary :=
  { smry with
    game := steam_json_str json "gameextrainfo"
    server := steam_json_str json "gameserverip"
    nick := steam_json_str json "personaname"
    fullname := steam_json_str json "realname"
    state := steam_json_int_d json "personastate" }

/-- A chat/poll message (`SteamApiMessage`): type tag, embedded sender
summary, text payload and timestamp. -/
structure SteamApiMessage where
  mtype : Int
  smry : SteamFriendSummary
  text : Option String := none
  tstamp : Int := 0
deriving DecidableEq, Repr

/-- `steam_api_message_new`: a zeroed message holding a fresh summary
for the given identity. -/
def steam_api_message_new (steamid : Option String) (tag : Nat) :
    SteamApiMessage :=
  { mtype := 0, smry := steam_friend_summary_new steamid tag }

/-- The transport queue's pause flag (`SteamHttp`), the only piece of
transport state the claims touch. -/
structure HttpState where
  paused : Bool
deriving DecidableEq, Repr

/-- `steam_http_queue_pause`. -/
def steam_http_queue_pause (_http : HttpState) (b : Bool) : HttpState :=
  { paused := b }

/-- One transport request as seen by the dispatcher: the transport-level
error, the JSON parse outcome of the response body (the JSON text→tree
parse of the external collaborator is abstracted to its result), and the
no-auto-free / resent flags. -/
structure ReqState where
  transport_err : Option String := none
  body : Option JVal := none
  nofree : Bool := false
  resent : Bool := false

/-- Modelled from the spec: `steam_http_req_resend` (in the missing
`steam-http.c`) resubmits the same request for a later resend and flags
it no-auto-free so the call context is kept alive rather than
discarded. -/
def steam_http_req_resend (req : ReqState) : ReqState :=
  { req with nofree := true, resent := true }

/-- The error synthesised by `steam_api_data_relogon` on the triggering
call context. -/
def relogon_expired_err : GErr :=
  ⟨.LOGON_EXPIRED, "Logon session expired"⟩

/-- `steam_api_data_relogon`: synthesises the logon-expired error on the
call context, pauses the transport queue, and resubmits the same
request. -/
def steam_api_data_relogon (http : HttpState) (req : ReqState) :
    Option GErr × HttpState × ReqState :=
  (some relogon_expired_err, steam_http_queue_pause http true,
   steam_http_req_resend req)

/-- Per-call lifecycle flags (`sata->flags`). -/
structure SataFlags where
  nocall : Bool := false
  nofree : Bool := false
  nojson : Bool := false
deriving DecidableEq, Repr

/-- Whether one chatlog array entry is kept: it must carry an integer
`m_unAccountID` different from the session's own account id. -/
def chatlog_entry_keep (accid : Int) (jv : JVal) : Bool :=
  match steam_json_int jv "m_unAccountID" with
  | none => false
  | some n => decide (n ≠ accid)

/-- The message built from one kept chatlog entry: a say-text message
whose summary carries the external form of the sender id, the
`m_strMessage` payload and the `m_tsTimestamp` timestamp. -/
def chatlog_entry_mesg (jv : JVal) (tag : Nat) : SteamApiMessage :=
  let sid := steam_api_steamid_int (steam_json_int_d jv "m_unAccountID")
  let mesg := steam_api_message_new none tag
  { mesg with
    mtype := STEAM_API_MESSAGE_TYPE_SAYTEXT
    smry := { mesg.smry with steamid := some (toString sid) }
    text := steam_json_str jv "m_strMessage"
    tstamp := steam_json_int_d jv "m_tsTimestamp" }

/-- The loop of `steam_api_chatlog_cb`: prepend a message for each kept
entry, reversing the accumulated list at the end
(`g_slist_reverse`). -/
def chatlog_go (accid : Int) :
    List JVal → Nat → List SteamApiMessage → List SteamApiMessage
  | [], _, acc => acc.reverse
  | jv :: rest, i, acc =>
      if chatlog_entry_keep accid jv then
        chatlog_go accid rest (i + 1) (chatlog_entry_mesg jv i :: acc)
      else
        chatlog_go accid rest (i + 1) acc

/-- `steam_api_chatlog_cb`: the response is the chatlog array itself;
entries without a sender account id, or whose sender account id equals
the session's own, are skipped.  (On a non-array response the C code
reads a garbage union arm; that case is modelled as the empty array and
is outside every claim's scope.) -/
def steam_api_chatlog_cb (api_steamid : Option String) (json : JVal) :
    List SteamApiMessage :=
  let accid := steam_api_accountid_str api_steamid
  match json with
  | .jarr elems => chatlog_go accid elems 0 []
  | _ => []

/-- The relationship gate of `steam_api_friends_cb`: a non-empty
`relationship` string case-insensitively equal to `"friend"` or
`"ignoredfriend"`, anything else skips the entry. -/
def friends_entry_relation (je : JVal) : Option SteamFriendRelation :=
  match steam_json_str je "relationship" with
  | none => none
  | some str =>
      if ascii_caseeq str "friend" then some .FRIEND
      else if ascii_caseeq str "ignoredfriend" then some .IGNORE
      else none

/-- Whether one friends array entry is kept: relationship gate passed
and a non-empty `steamid` string present. -/
def friends_entry_keep (je : JVal) : Bool :=
  (friends_entry_relation je).isSome && (steam_json_str je "steamid").isSome

/-- The summary allocated for one kept friends entry. -/
def friends_entry_smry (je : JVal) (tag : Nat) : SteamFriendSummary :=
  { steam_friend_summary_new (steam_json_str je "steamid") tag with
    relation := (friends_entry_relation je).getD .NONE }

/-- The loop of `steam_api_friends_cb`: each kept entry's summary is
prepended both to the local result list and to the context's
pending-summary list; neither list is reversed afterwards. -/
def friends_go :
    List JVal → Nat → List SteamFriendSummary → List SteamFriendSummary →
    List SteamFriendSummary × List SteamFriendSummary
  | [], _, friends, sums => (friends, sums)
  | je :: rest, i, friends, sums =>
      if friends_entry_keep je then
        friends_go rest (i + 1) (friends_entry_smry je i :: friends)
          (friends_entry_smry je i :: sums)
      else
        friends_go rest (i + 1) friends sums

/-- `steam_api_friends_cb`: parses the `friends` array into the result
list (`sata->rdata`) and the pending-summary list (`sata->sums`); both
are returned here, result list first.  The context's pending list is
empty on entry (the dispatcher only runs this parser when no summaries
are pending). -/
def steam_api_friends_cb (json : JVal) :
    List SteamFriendSummary × List SteamFriendSummary :=
  match steam_json_arr json "friends" with
  | none => ([], [])
  | some l => friends_go l 0 [] []

/-- Modelled from the spec: the fixed minimum poll interval
`STEAM_API_TIMEOUT` (the "timeout floor" of the missing `steam-api.h`);
only its positivity matters to the claims. -/
def STEAM_API_TIMEOUT : Int := 30

/-- The outcome of `steam_api_poll_cb` on a call context whose error
slot is empty: the error set (if any), whether
`steam_api_data_relogon` ran, the session cursor after the call, the
produced message list and the summaries registered pending
enrichment. -/
structure PollOut where
  err : Option GErr
  relogon : Bool
  lmid : Int
  msgs : List SteamApiMessage
  sums : List SteamFriendSummary
deriving DecidableEq, Repr

/-- One iteration of the poll message loop: `none` when the entry is
skipped (sent by the session's own identity, or carrying an
unclassifiable type, which is freed and dropped); otherwise the built
message and whether its summary was registered for enrichment. -/
def poll_msg_entry (api_steamid : Option String) (je : JVal) (tag : Nat) :
    Option (SteamApiMessage × Bool) :=
  let own := steam_json_scmp je "steamid_from" api_steamid
  if own.1 then none
  else
    let mesg0 := steam_api_message_new own.2 tag
    let mt := steam_api_message_type_from_str (steam_json_str je "type")
    let mesg := { mesg0 with
                  mtype := mt, tstamp := steam_json_int_d je "utc_timestamp" }
    if mt = STEAM_API_MESSAGE_TYPE_SAYTEXT ∨ mt = STEAM_API_MESSAGE_TYPE_EMOTE then
      some ({ mesg with text := steam_json_str je "text" }, false)
    else if mt = STEAM_API_MESSAGE_TYPE_STATE then
      some ({ mesg with
              smry := { mesg.smry with nick := steam_json_str je "persona_name" } },
            true)
    else if mt = STEAM_API_MESSAGE_TYPE_RELATIONSHIP then
      some ({ mesg with
              smry := { mesg.smry with action := steam_json_int_d je "persona_state" } },
            true)
    else if mt = STEAM_API_MESSAGE_TYPE_TYPING ∨ mt = STEAM_API_MESSAGE_TYPE_LEFT_CONV then
      some (mesg, false)
    else
      none

/-- The poll message loop: messages are prepended then reversed at the
end; registered summaries are prepended to the pending list and never
reversed. -/
def poll_go (api_steamid : Option String) :
    List JVal → Nat → List SteamApiMessage → List SteamFriendSummary →
    List SteamApiMessage × List SteamFriendSummary
  | [], _, msgs, sums => (msgs.reverse, sums)
  | je :: rest, i, msgs, sums =>
      match poll_msg_entry api_steamid je i with
      | none => poll_go api_steamid rest (i + 1) msgs sums
      | some (m, reg) =>
          poll_go api_steamid rest (i + 1) (m :: msgs)
            (if reg then m.smry :: sums else sums)

/-- The part of `steam_api_poll_cb` after the error-string gate: the
message count / timeout-floor validation, the duplicate-cursor no-op,
and the message loop.  (When the `messages` member is absent the C loop
reads an uninitialised array pointer; no claim reaches that path, and it
is modelled as the empty array.) -/
def steam_api_poll_body (api_steamid : Option String) (api_lmid : Int)
    (json : JVal) : PollOut :=
  let base : PollOut :=
    { err := none, relogon := false, lmid := api_lmid, msgs := [], sums := [] }
  let size : Nat :=
    match steam_json_arr json "messages" with
    | some l => l.length
    | none => 0
  let tin := steam_json_int_d json "sectimeout"
  if (steam_json_int json "sectimeout").isNone ∨
     (tin < STEAM_API_TIMEOUT ∧ size < 1) then
    { base with
      err := some ⟨.POLL, "Timeout of " ++ toString tin ++ " too low"⟩ }
  else
    match steam_json_int json "messagelast" with
    | none => base
    | some ml =>
        if ml = api_lmid then base
        else
          let elems := (steam_json_arr json "messages").getD []
          let (msgs, sums) := poll_go api_steamid elems 0 [] []
          { base with lmid := ml, msgs := msgs, sums := sums }

/-- `steam_api_poll_cb`: the error-string gate (`"Timeout"` and `"OK"`
are non-fatal, `"Not Logged On"` triggers the relogon recovery, any
other string is a fatal poll error), followed by the body. -/
def steam_api_poll_cb (api_steamid : Option String) (api_lmid : Int)
    (json : JVal) : PollOut :=
  let base : PollOut :=
    { err := none, relogon := false, lmid := api_lmid, msgs := [], sums := [] }
  match steam_json_str json "error" with
  | some str =>
      if ¬ ascii_caseeq str "Timeout" ∧ ¬ ascii_caseeq str "OK" then
        if ascii_caseeq str "Not Logged On" then
          { base with err := some relogon_expired_err, relogon := true }
        else
          { base with err := some ⟨.POLL, str⟩ }
      else steam_api_poll_body api_steamid api_lmid json
  | none => steam_api_poll_body api_steamid api_lmid json

/-- `steam_api_message_cb`: `"OK"` is success, `"Not Logged On"`
triggers the relogon recovery, any other string is fatal (the source
tags it with the `LOGOFF` error code).  `none` models the undefined
behaviour of `g_ascii_strcasecmp(NULL, ...)` when the `error` member is
absent or empty. -/
def steam_api_message_cb (json : JVal) : Option (Option GErr × Bool) :=
  let r := steam_json_scmp json "error" (some "OK")
  if r.1 then some (none, false)
  else
    match r.2 with
    | none => none
    | some s =>
        if ascii_caseeq s "Not Logged On" then
          some (some relogon_expired_err, true)
        else
          some (some ⟨.LOGOFF, s⟩, false)

/-- `steam_api_relogon_cb`: unpauses the transport queue first,
unconditionally, then reports success iff the `error` member equals
`"OK"`; on any other outcome a relogon error carrying the server's
string is set (glibc renders a `NULL` string as `"(null)"`). -/
def steam_api_relogon_cb (http : HttpState) (json : JVal) :
    HttpState × Option GErr :=
  let http1 := steam_http_queue_pause http false
  let r := steam_json_scmp json "error" (some "OK")
  if r.1 then (http1, none)
  else (http1, some ⟨.RELOGON, (r.2).getD "(null)"⟩)

/-- The credential-challenge state of the credential module that
`steam_api_auth_cb` records into (modelled from the spec:
`recordCaptchaChallenge` / `recordEmailChallenge` of the missing
`steam-auth.c` store the challenge ids). -/
structure SteamAuthState where
  cgid : Option String := none
  esid : Option String := none
deriving DecidableEq, Repr

/-- The outcome of `steam_api_auth_cb`: the credential state after any
challenge-id recording, the error set (if any), the OAuth token stored
on the session (if any), whether the redirect request was issued, and
the lifecycle flags left on the context. -/
structure AuthCbOut where
  auth : SteamAuthState
  err : Option GErr
  token : Option String
  rdir : Bool
  nocall : Bool
  nofree : Bool
deriving DecidableEq, Repr

/-- `steam_api_auth_cb`.  A `captcha_gid` or `emailsteamid` member is
recorded on the credential module before the success check.  Failure
(`success` absent or false) classifies the error by the
`emailauth_needed` / `captcha_needed` booleans and carries the server's
`message` (default `"Failed to authenticate"`).  Success requires the
embedded `oauth` string, re-parsed through the JSON collaborator
(`parse` abstracts `steam_json_new`), to contain `oauth_token`; a
missing `oauth` or `oauth_token` is a hard auth error, a failed re-parse
is a parser error (its text abstracted).  On full success the token is
stored, the context is flagged no-callback / no-free and the redirect
request is issued. -/
def steam_api_auth_cb (parse : String → Option JVal)
    (auth0 : SteamAuthState) (json : JVal) : AuthCbOut :=
  let auth1 :=
    match steam_json_str json "captcha_gid" with
    | some s => { auth0 with cgid := some s }
    | none => auth0
  let auth2 :=
    match steam_json_str json "emailsteamid" with
    | some s => { auth1 with esid := some s }
    | none => auth1
  let base : AuthCbOut :=
    { auth := auth2, err := none, token := none, rdir := false,
      nocall := false, nofree := false }
  if ¬ steam_json_bool json "success" then
    let code : SteamApiError :=
      if steam_json_bool json "emailauth_needed" then .AUTH_GUARD
      else if steam_json_bool json "captcha_needed" then .AUTH_CAPTCHA
      else .AUTH
    let msg := (steam_json_str json "message").getD "Failed to authenticate"
    { base with err := some ⟨code, msg⟩ }
  else
    match steam_json_str json "oauth" with
    | none => { base with err := some ⟨.AUTH, "Failed to obtain OAuth sata"⟩ }
    | some ostr =>
        match parse ostr with
        | none => { base with err := some ⟨.PARSER, "Parser"⟩ }
        | some j2 =>
            match steam_json_str j2 "oauth_token" with
            | none =>
                { base with err := some ⟨.AUTH, "Failed to obtain OAuth token"⟩ }
            | some tok =>
                { base with
                  token := some tok
                  rdir := true
                  nocall := true
                  nofree := true }

/-- What the tail of `steam_api_cb` (after the parser ran) did: the
error after call-type prefixing, whether the user's typed callback was
invoked, whether the call context was released, and the lifecycle flags
it carries into a possible resend. -/
structure CbTailOut where
  err : Option GErr
  invoked : Bool
  freed : Bool
  flags : SataFlags
deriving DecidableEq, Repr

/-- `g_prefix_error`. -/
def g_prefix_error (err : Option GErr) (pre : String) : Option GErr :=
  match err with
  | none => none
  | some e => some ⟨e.code, pre ++ e.msg⟩

/-- The tail of `steam_api_cb`: prefix any error with the human-readable
call-type label, invoke the typed callback unless the context is flagged
no-callback, adopt the request's no-auto-free flag, and either release
the context or clear the suppress flags for the pending resend.  (The
label lookup is total on the in-range call types the dispatcher
reaches.) -/
def steam_api_cb_tail (stype : Int) (flags : SataFlags) (err : Option GErr)
    (req_nofree : Bool) : CbTailOut :=
  let pre :=
    match steam_api_type_str stype with
    | some s => s ++ ": "
    | none => ""
  let err1 := g_prefix_error err pre
  let invoked := ¬ flags.nocall
  let nofree1 := flags.nofree ∨ req_nofree
  if nofree1 then
    { err := err1, invoked := invoked, freed := false,
      flags := { flags with nocall := false, nofree := false } }
  else
    { err := err1, invoked := invoked, freed := true, flags := flags }

/-- The full dispatcher pass for a poll call context (the
`steam_api_cb` instance whose function-table entry is
`steam_api_poll_cb`): transport errors are adopted and parsing skipped;
a body that fails to parse yields the parser's error; otherwise the poll
parser runs on the fresh context (no pending summaries, clear flags) and
its relogon / summary-batching effects are applied before the common
tail. -/
structure PollPassOut where
  tail : CbTailOut
  http : HttpState
  req : ReqState
  lmid : Int
  msgs : List SteamApiMessage
  summariesSent : Bool

/-- Dispatcher pass at call type `STEAM_API_TYPE_POLL`. -/
def steam_api_cb_poll (api_steamid : Option String) (api_lmid : Int)
    (http : HttpState) (req : ReqState) : PollPassOut :=
  match req.transport_err with
  | some te =>
      { tail := steam_api_cb_tail STEAM_API_TYPE_POLL {} (some ⟨.TRANSPORT, te⟩)
          req.nofree,
        http := http, req := req, lmid := api_lmid, msgs := [],
        summariesSent := false }
  | none =>
      match req.body with
      | none =>
          { tail := steam_api_cb_tail STEAM_API_TYPE_POLL {}
              (some ⟨.PARSER, "Parser"⟩) req.nofree,
            http := http, req := req, lmid := api_lmid, msgs := [],
            summariesSent := false }
      | some json =>
          let out := steam_api_poll_cb api_steamid api_lmid json
          let http1 := if out.relogon then steam_http_queue_pause http true else http
          let req1 := if out.relogon then steam_http_req_resend req else req
          let batching := ¬ out.sums.isEmpty
          let flags : SataFlags :=
            if batching then { nocall := true, nofree := true } else {}
          let req_nofree := if batching then false else req1.nofree
          { tail := steam_api_cb_tail STEAM_API_TYPE_POLL flags out.err req_nofree,
            http := http1, req := req1, lmid := out.lmid, msgs := out.msgs,
            summariesSent := batching }

/-- Dispatcher pass for a message-send call context.  `none` models the
undefined behaviour inherited from `steam_api_message_cb` on a body
without an `error` string. -/
structure MsgPassOut where
  tail : CbTailOut
  http : HttpState
  req : ReqState

/-- Dispatcher pass at call type `STEAM_API_TYPE_MESSAGE`. -/
def steam_api_cb_message (http : HttpState) (req : ReqState) :
    Option MsgPassOut :=
  match req.transport_err with
  | some te =>
      some { tail := steam_api_cb_tail STEAM_API_TYPE_MESSAGE {}
               (some ⟨.TRANSPORT, te⟩) req.nofree,
             http := http, req := req }
  | none =>
      match req.body with
      | none =>
          some { tail := steam_api_cb_tail STEAM_API_TYPE_MESSAGE {}
                   (some ⟨.PARSER, "Parser"⟩) req.nofree,
                 http := http, req := req }
      | some json =>
          match steam_api_message_cb json with
          | none => none
          | some (err, relogon) =>
              let http1 := if relogon then steam_http_queue_pause http true else http
              let req1 := if relogon then steam_http_req_resend req else req
              some { tail := steam_api_cb_tail STEAM_API_TYPE_MESSAGE {} err
                       req1.nofree,
                     http := http1, req := req1 }

/-- Dispatcher pass for an authentication call context: the auth parser
runs, and on success the redirect request replaces the context's request
and retags the context as `STEAM_API_TYPE_AUTH_RDIR` before the tail
(so prefixing uses the redirect label, and the redirect request carries
fresh flags). -/
structure AuthPassOut where
  tail : CbTailOut
  auth : SteamAuthState
  token : Option String
  rdirStarted : Bool
deriving Repr

/-- Dispatcher pass at call type `STEAM_API_TYPE_AUTH`. -/
def steam_api_cb_auth (parse : String → Option JVal)
    (auth0 : SteamAuthState) (req : ReqState) : AuthPassOut :=
  match req.transport_err with
  | some te =>
      { tail := steam_api_cb_tail STEAM_API_TYPE_AUTH {} (some ⟨.TRANSPORT, te⟩)
          req.nofree,
        auth := auth0, token := none, rdirStarted := false }
  | none =>
      match req.body with
      | none =>
          { tail := steam_api_cb_tail STEAM_API_TYPE_AUTH {}
              (some ⟨.PARSER, "Parser"⟩) req.nofree,
            auth := auth0, token := none, rdirStarted := false }
      | some json =>
          let out := steam_api_auth_cb parse auth0 json
          let stype := if out.rdir then STEAM_API_TYPE_AUTH_RDIR
                       else STEAM_API_TYPE_AUTH
          let flags : SataFlags := { nocall := out.nocall, nofree := out.nofree }
          let req_nofree := if out.rdir then false else req.nofree
          { tail := steam_api_cb_tail stype flags out.err req_nofree,
            auth := out.auth, token := out.token, rdirStarted := out.rdir }

/-- The identity-collection loop of `steam_api_summaries`: walk the
pending list, skipping identities already in the hash table, and stop
once one hundred identities have been collected for this request.  The
accumulator doubles as the hash table (same membership) and is reversed
into request order at the end. -/
def summaries_batch_go : List String → List String → Nat → List String
  | [], acc, _ => acc.reverse
  | s :: rest, acc, i =>
      if s ∈ acc then summaries_batch_go rest acc i
      else if (i + 1) % 100 = 0 then (s :: acc).reverse
      else summaries_batch_go rest (s :: acc) (i + 1)

/-- The identity list of the single summaries request that one
invocation of `steam_api_summaries` issues: the first hundred distinct
identities of the pending list. -/
def summaries_batch (sums : List String) : List String :=
  summaries_batch_go sums [] 0

/-- The batching loop driven by summary responses: while the pending
list is non-empty, `steam_api_summaries` issues one batch request and
flags the context suppress-callback / keep-alive; the summaries
response removes every pending entry matching a returned identity
(`steam_api_summaries_cb`) and re-invokes `steam_api_summaries`.  The
server is modelled as returning exactly the requested identities; fuel
bounds the recursion by the pending list's length. -/
def summaries_requests_go : Nat → List String → List (List String)
  | 0, _ => []
  | fuel + 1, sums =>
      if sums.isEmpty then []
      else
        let b := summaries_batch sums
        b :: summaries_requests_go fuel (sums.filter (fun s => decide (s ∉ b)))

/-- All summaries requests issued for a pending list until it drains. -/
def summaries_requests (sums : List String) : List (List String) :=
  summaries_requests_go sums.length sums

/-- A poll body whose parsed error string is `"Not Logged On"`. -/
def nlo_body : JVal := .jobj [("error", .jstr "Not Logged On")]

/-- A poll body that passed the error-string gate, carries one message,
but advertises no `sectimeout`. -/
def poll_missing_timeout_body : JVal :=
  .jobj [("messages", .jarr [.jobj []]), ("messagelast", .jint 1)]

/-- An error-less poll body whose `messagelast` repeats the cursor. -/
def poll_dup_cursor_body : JVal :=
  .jobj [("error", .jstr "OK"), ("sectimeout", .jint 30),
         ("messages", .jarr []), ("messagelast", .jint 5)]

/-- A poll body that passed the gate but advertises a timeout below the
floor with zero messages. -/
def poll_low_timeout_body : JVal :=
  .jobj [("error", .jstr "OK"), ("sectimeout", .jint 10),
         ("messages", .jarr []), ("messagelast", .jint 1)]

/-- A relogon body reporting failure. -/
def relogon_fail_body : JVal := .jobj [("error", .jstr "FAIL")]

/-- The failing auth scenario body
`success false / captcha_needed true / message "bad"`. -/
def auth_fail_body : JVal :=
  .jobj [("success", .jbool false), ("captcha_needed", .jbool true),
         ("message", .jstr "bad")]

/-- An auth body that succeeds but whose embedded document lacks
`oauth_token`. -/
def auth_tokenless_body : JVal :=
  .jobj [("success", .jbool true), ("oauth", .jstr "inner")]

/-- A JSON collaborator for the witnesses: parses only the string
`"inner"`, into an empty object. -/
def auth_parse_w (s : String) : Option JVal :=
  if s = "inner" then some (.jobj []) else none

/-- A chatlog entry sent by the session's own account (account id 1
when the session identity is `"76561197960265729"`). -/
def chatlog_own_entry : JVal :=
  .jobj [("m_unAccountID", .jint 1), ("m_strMessage", .jstr "mine"),
         ("m_tsTimestamp", .jint 10)]

/-- A chatlog entry sent by another account. -/
def chatlog_other_entry : JVal :=
  .jobj [("m_unAccountID", .jint 2), ("m_strMessage", .jstr "hello"),
         ("m_tsTimestamp", .jint 11)]

/-- One friends entry with relationship `"friend"` and identity
`"1"`. -/
def friends_dup_entry : JVal :=
  .jobj [("relationship", .jstr "friend"), ("steamid", .jstr "1")]

/-- A friends body listing the same identity twice. -/
def friends_dup_body : JVal :=
  .jobj [("friends", .jarr [friends_dup_entry, friends_dup_entry])]

/-- The error-string gate of `steam_api_poll_cb`, as a decidable
condition: no (non-empty) `error` string, or one equal to `"Timeout"`
or `"OK"`. -/
def poll_error_gate_passes (json : JVal) : Bool :=
  match steam_json_str json "error" with
  | none => true
  | some str => ascii_caseeq str "Timeout" || ascii_caseeq str "OK"

/-- The relogon-recovery trigger: the parsed `error` string is
case-insensitively `"Not Logged On"`. -/
def relogon_trigger (json : JVal) : Bool :=
  match steam_json_str json "error" with
  | none => false
  | some str => ascii_caseeq str "Not Logged On"

theorem wrap64_wrap_add (a b : Int) : wrap64 (wrap64 a + b) = wrap64 (a + b) := by
  unfold wrap64
  congr 1
  have h1 : (a + 2 ^ 63) % 2 ^ 64 - 2 ^ 63 + b + 2 ^ 63
      = (a + 2 ^ 63) % 2 ^ 64 + b := by ring
  rw [h1, Int.emod_add_emod]
  ring_nf

theorem wrap64_eq_self (x : Int) (h1 : -(2 ^ 63) ≤ x) (h2 : x < 2 ^ 63) :
    wrap64 x = x := by
  unfold wrap64
  have e : (2 : Int) ^ 64 = 2 ^ 63 * 2 := by norm_num
  rw [Int.emod_eq_of_lt (by linarith) (by rw [e]; linarith)]
  ring

/-- C9: internal ⇄ external identity conversion is the exact additive
offset `STEAM_API_STEAMID` and round-trips in both directions for every
representable `gint64` value. -/
theorem steamid_conversion_roundtrip (x : Int)
    (h1 : -(2 ^ 63) ≤ x) (h2 : x < 2 ^ 63) :
    steam_api_steamid_int (steam_api_accountid_int x) = x ∧
    steam_api_accountid_int (steam_api_steamid_int x) = x := by
  unfold steam_api_steamid_int steam_api_accountid_int
  constructor
  · rw [wrap64_wrap_add]
    have : x - STEAM_API_STEAMID + STEAM_API_STEAMID = x := by ring
    rw [this]
    exact wrap64_eq_self x h1 h2
  · rw [sub_eq_add_neg, wrap64_wrap_add]
    have : x + STEAM_API_STEAMID + -STEAM_API_STEAMID = x := by ring
    rw [this]
    exact wrap64_eq_self x h1 h2

/-- C9 witness: the round trip at the concrete identity
76561197960287930. -/
theorem steamid_conversion_roundtrip_witness :
    (-(2 ^ 63) ≤ (76561197960287930 : Int)) ∧
    ((76561197960287930 : Int) < 2 ^ 63) ∧
    steam_api_steamid_int (steam_api_accountid_int 76561197960287930)
      = 76561197960287930 ∧
    steam_api_accountid_int (steam_api_steamid_int 76561197960287930)
      = 76561197960287930 :=
  ⟨by norm_num, by norm_num,
   (steamid_conversion_roundtrip 76561197960287930 (by norm_num) (by norm_num)).1,
   (steamid_conversion_roundtrip 76561197960287930 (by norm_num) (by norm_num)).2⟩

/-- C10: both label lookups return their fallback for out-of-range
values strictly beyond or below the table, but the guard uses `>`
instead of `>=`, so the boundary value equal to the `LAST` sentinel
itself slips through and indexes the static table one cell past its end
(an out-of-bounds read, `none` in the embedding) instead of returning
the fallback label. -/
theorem type_str_oob_at_sentinel :
    steam_api_type_str STEAM_API_TYPE_LAST = none ∧
    steam_api_message_type_str STEAM_API_MESSAGE_TYPE_LAST = none ∧
    steam_api_type_str 17 = some "Generic" ∧
    steam_api_type_str (-1) = some "Generic" ∧
    steam_api_type_str 15 = some "Summary" ∧
    steam_api_message_type_str 7 = some "" ∧
    steam_api_message_type_str (-1) = some "" ∧
    steam_api_message_type_str 5 = some "typing" := by
  refine ⟨rfl, rfl, rfl, rfl, rfl, rfl, rfl, rfl⟩

/-- C2 counterexample: a failed relogon response (`error` ≠ `"OK"`)
does not leave the queue paused — the handler unpauses it even on
failure, while surfacing the relogon error. -/
theorem relogon_cb_unpauses_on_failure_cex :
    (steam_api_relogon_cb ⟨true⟩ relogon_fail_body).1.paused = false ∧
    (steam_api_relogon_cb ⟨true⟩ relogon_fail_body).2
      = some ⟨.RELOGON, "FAIL"⟩ :=
  ⟨rfl, rfl⟩

/-- C2 (amended): the relogon response handler unpauses the transport
queue unconditionally — on success and on failure alike — and sets a
relogon error exactly when the `error` member is not `"OK"`; the error
is surfaced through the normal relogon callback (the dispatcher tail
invokes it). -/
theorem relogon_cb_spec (http : HttpState) (json : JVal) :
    (steam_api_relogon_cb http json).1.paused = false ∧
    ((steam_api_relogon_cb http json).2 = none ↔
      (steam_json_scmp json "error" (some "OK")).1 = true) ∧
    (steam_api_cb_tail STEAM_API_TYPE_RELOGON {}
      (steam_api_relogon_cb http json).2 false).invoked = true := by
  unfold steam_api_relogon_cb steam_http_queue_pause steam_api_cb_tail
  by_cases h : (steam_json_scmp json "error" (some "OK")).1 <;>
    simp [h, SataFlags.nofree, SataFlags.nocall]

theorem poll_cb_gate (api_steamid : Option String) (lmid : Int) (json : JVal)
    (hgate : poll_error_gate_passes json = true) :
    steam_api_poll_cb api_steamid lmid json =
      steam_api_poll_body api_steamid lmid json := by
  unfold poll_error_gate_passes at hgate
  unfold steam_api_poll_cb
  cases he : steam_json_str json "error" with
  | none => rfl
  | some str =>
      rw [he] at hgate
      have h1 : ¬ (¬ ascii_caseeq str "Timeout" = true ∧
          ¬ ascii_caseeq str "OK" = true) := by
        simp only [Bool.or_eq_true] at hgate
        rcases hgate with h | h <;> simp [h]
      dsimp only
      rw [if_neg h1]

theorem poll_body_err (api_steamid : Option String) (lmid : Int) (json : JVal) :
    (steam_api_poll_body api_steamid lmid json).err =
      if (steam_json_int json "sectimeout") = none ∨
         (steam_json_int_d json "sectimeout" < STEAM_API_TIMEOUT ∧
          ((steam_json_arr json "messages").getD []).length = 0)
      then some ⟨.POLL, "Timeout of "
        ++ toString (steam_json_int_d json "sectimeout") ++ " too low"⟩
      else none := by
  unfold steam_api_poll_body
  have hsize : (match steam_json_arr json "messages" with
      | some l => l.length
      | none => 0) = ((steam_json_arr json "messages").getD []).length := by
    cases steam_json_arr json "messages" <;> rfl
  by_cases hc : (steam_json_int json "sectimeout") = none ∨
      (steam_json_int_d json "sectimeout" < STEAM_API_TIMEOUT ∧
       ((steam_json_arr json "messages").getD []).length = 0)
  · rw [if_pos hc]
    have hc' : (steam_json_int json "sectimeout").isNone = true ∨
        (steam_json_int_d json "sectimeout" < STEAM_API_TIMEOUT ∧
         (match steam_json_arr json "messages" with
          | some l => l.length
          | none => 0) < 1) := by
      rcases hc with h | ⟨h1, h2⟩
      · exact Or.inl (Option.isNone_iff_eq_none.mpr h)
      · exact Or.inr ⟨h1, by rw [hsize]; omega⟩
    simp only [if_pos hc']
  · rw [if_neg hc]
    have hc' : ¬ ((steam_json_int json "sectimeout").isNone = true ∨
        (steam_json_int_d json "sectimeout" < STEAM_API_TIMEOUT ∧
         (match steam_json_arr json "messages" with
          | some l => l.length
          | none => 0) < 1)) := by
      rw [hsize]
      push_neg at hc ⊢
      refine ⟨fun h => hc.1 (Option.isNone_iff_eq_none.mp h), fun h1 => ?_⟩
      have := hc.2 h1
      omega
    simp only [if_neg hc']
    cases hm : steam_json_int json "messagelast" with
    | none => rfl
    | some ml =>
        by_cases hml : ml = lmid
        · simp only [if_pos hml]
        · simp only [if_neg hml]

/-- C5 counterexample: a poll body that passed the error-string gate
and carries one message still fails the timeout validation when
`sectimeout` is absent — contradicting "a body with at least one
message never fails on the timeout check" (and the claimed
iff, since the claimed right-hand side is false here). -/
theorem poll_timeout_check_cex :
    poll_error_gate_passes poll_missing_timeout_body = true ∧
    ((steam_json_arr poll_missing_timeout_body "messages").getD []).length = 1 ∧
    (steam_api_poll_cb none 0 poll_missing_timeout_body).err
      = some ⟨.POLL, "Timeout of 0 too low"⟩ :=
  ⟨rfl, rfl, rfl⟩

/-- C5 (amended): for every poll response that passed the error-string
gate, the poll (protocol-violation) error is set if and only if the
`sectimeout` member is missing, or the advertised timeout is below the
fixed minimum while zero messages were returned; a body with at least
one message can only fail the timeout check by omitting `sectimeout`
altogether. -/
theorem poll_timeout_check_spec (api_steamid : Option String) (lmid : Int)
    (json : JVal) (hgate : poll_error_gate_passes json = true) :
    (steam_api_poll_cb api_steamid lmid json).err =
      if (steam_json_int json "sectimeout") = none ∨
         (steam_json_int_d json "sectimeout" < STEAM_API_TIMEOUT ∧
          ((steam_json_arr json "messages").getD []).length = 0)
      then some ⟨.POLL, "Timeout of "
        ++ toString (steam_json_int_d json "sectimeout") ++ " too low"⟩
      else none := by
  rw [poll_cb_gate api_steamid lmid json hgate]
  exact poll_body_err api_steamid lmid json

/-- C5 witness: at a gate-passing body advertising timeout 10 with zero
messages, the poll error is set. -/
theorem poll_timeout_check_spec_witness :
    poll_error_gate_passes poll_low_timeout_body = true ∧
    (steam_api_poll_cb none 0 poll_low_timeout_body).err
      = some ⟨.POLL, "Timeout of 10 too low"⟩ :=
  ⟨rfl, by rw [poll_timeout_check_spec none 0 poll_low_timeout_body rfl]; rfl⟩

/-- C6: a valid, error-less poll response (gate passed, `sectimeout`
present and not failing the floor check) whose `messagelast` cursor
equals the session's last-seen cursor produces zero messages, sets no
error, registers nothing for enrichment, triggers no relogon, and
leaves the cursor unchanged. -/
theorem poll_duplicate_cursor_noop (api_steamid : Option String)
    (lmid tsec : Int) (json : JVal)
    (h1 : poll_error_gate_passes json = true)
    (h2 : steam_json_int json "sectimeout" = some tsec)
    (h3 : ¬ (tsec < STEAM_API_TIMEOUT ∧
      ((steam_json_arr json "messages").getD []).length = 0))
    (h4 : steam_json_int json "messagelast" = some lmid) :
    steam_api_poll_cb api_steamid lmid json =
      { err := none, relogon := false, lmid := lmid, msgs := [], sums := [] } := by
  rw [poll_cb_gate api_steamid lmid json h1]
  unfold steam_api_poll_body
  have hsize : (match steam_json_arr json "messages" with
      | some l => l.length
      | none => 0) = ((steam_json_arr json "messages").getD []).length := by
    cases steam_json_arr json "messages" <;> rfl
  have hd : steam_json_int_d json "sectimeout" = tsec := by
    unfold steam_json_int_d
    rw [h2]
    rfl
  have hcnd : ¬ ((steam_json_int json "sectimeout").isNone = true ∨
      (steam_json_int_d json "sectimeout" < STEAM_API_TIMEOUT ∧
       (match steam_json_arr json "messages" with
        | some l => l.length
        | none => 0) < 1)) := by
    rw [hsize, hd, h2]
    push_neg
    refine ⟨by simp, fun hlt => ?_⟩
    have hne : ((steam_json_arr json "messages").getD []).length ≠ 0 :=
      fun h0 => h3 ⟨hlt, h0⟩
    omega
  dsimp only
  rw [if_neg hcnd, h4]
  dsimp only
  rw [if_pos rfl]

/-- C6 witness: the duplicate-cursor no-op at a concrete error-less
body with cursor 5. -/
theorem poll_duplicate_cursor_noop_witness :
    poll_error_gate_passes poll_dup_cursor_body = true ∧
    steam_api_poll_cb none 5 poll_dup_cursor_body =
      { err := none, relogon := false, lmid := 5, msgs := [], sums := [] } :=
  ⟨rfl,
   poll_duplicate_cursor_noop none 5 30 poll_dup_cursor_body rfl rfl
     (by decide) rfl⟩

theorem ascii_caseeq_length (s t : String) (h : ascii_caseeq s t = true) :
    s.data.length = t.data.length := by
  unfold ascii_caseeq at h
  have h2 : s.data.map g_ascii_lower = t.data.map g_ascii_lower :=
    of_decide_eq_true h
  have h3 := congrArg List.length h2
  simpa using h3

theorem ascii_caseeq_ne_of_length (s t : String)
    (h : s.data.length ≠ t.data.length) : ascii_caseeq s t = false := by
  rw [Bool.eq_false_iff]
  intro hx
  exact h (ascii_caseeq_length s t hx)

theorem relogon_trigger_length (str : String)
    (h : ascii_caseeq str "Not Logged On" = true) : str.data.length = 13 := by
  have h1 := ascii_caseeq_length str "Not Logged On" h
  simpa using h1

theorem poll_cb_relogon (api_steamid : Option String) (lmid : Int)
    (json : JVal) (h : relogon_trigger json = true) :
    steam_api_poll_cb api_steamid lmid json =
      { err := some relogon_expired_err, relogon := true, lmid := lmid,
        msgs := [], sums := [] } := by
  unfold relogon_trigger at h
  unfold steam_api_poll_cb
  cases he : steam_json_str json "error" with
  | none =>
      rw [he] at h
      exact absurd h (by simp)
  | some str =>
      rw [he] at h
      have h13 := relogon_trigger_length str h
      have hT : ascii_caseeq str "Timeout" = false :=
        ascii_caseeq_ne_of_length str "Timeout" (by rw [h13]; decide)
      have hO : ascii_caseeq str "OK" = false :=
        ascii_caseeq_ne_of_length str "OK" (by rw [h13]; decide)
      dsimp only
      rw [if_pos ⟨by simp [hT], by simp [hO]⟩, if_pos h]

theorem message_cb_relogon (json : JVal) (h : relogon_trigger json = true) :
    steam_api_message_cb json = some (some relogon_expired_err, true) := by
  unfold relogon_trigger at h
  unfold steam_api_message_cb steam_json_scmp
  cases he : steam_json_str json "error" with
  | none =>
      rw [he] at h
      exact absurd h (by simp)
  | some str =>
      rw [he] at h
      have h13 := relogon_trigger_length str h
      have hO : ascii_caseeq "OK" str = false :=
        ascii_caseeq_ne_of_length "OK" str (by rw [h13]; decide)
      dsimp only
      rw [hO]
      rw [if_neg (by simp), if_pos h]

/-- C1 counterexample: for the poll body whose error string is
`"Not Logged On"`, the triggering pass of the dispatcher does invoke
the caller's poll callback immediately (with the prefixed logon-expired
error) — it is not deferred until the resend completes, contradicting
the claim's final clause (the request is nevertheless resent, not
discarded). -/
theorem relogon_trigger_callback_cex :
    (steam_api_cb_poll none 0 ⟨false⟩ { body := some nlo_body }).tail.invoked
      = true ∧
    (steam_api_cb_poll none 0 ⟨false⟩ { body := some nlo_body }).tail.err
      = some ⟨.LOGON_EXPIRED, "Polling: Logon session expired"⟩ ∧
    (steam_api_cb_poll none 0 ⟨false⟩ { body := some nlo_body }).req.resent
      = true :=
  ⟨rfl, rfl, rfl⟩

/-- C1 (amended): for every poll or message-send response whose parsed
error string is `"Not Logged On"`, the dispatcher sets the logon-expired
(session-expired) error on the triggering call context, pauses the
transport queue, and resubmits the same triggering request for resend
rather than discarding it (the context survives, kept alive by the
request's no-auto-free flag); the caller's callback for the triggering
call IS invoked immediately in this pass, carrying the prefixed
logon-expired error, while the context survives un-freed for the
resend. -/
theorem relogon_trigger_spec :
    (∀ (json : JVal) (api_steamid : Option String) (lmid : Int)
       (http : HttpState) (req : ReqState),
      req.transport_err = none → req.body = some json →
      relogon_trigger json = true →
      steam_api_cb_poll api_steamid lmid http req =
        { tail := { err := some ⟨.LOGON_EXPIRED, "Polling: Logon session expired"⟩,
                    invoked := true, freed := false, flags := {} },
          http := { paused := true },
          req := { req with nofree := true, resent := true },
          lmid := lmid, msgs := [], summariesSent := false }) ∧
    (∀ (json : JVal) (http : HttpState) (req : ReqState),
      req.transport_err = none → req.body = some json →
      relogon_trigger json = true →
      steam_api_cb_message http req =
        some { tail := { err := some ⟨.LOGON_EXPIRED, "Message: Logon session expired"⟩,
                         invoked := true, freed := false, flags := {} },
               http := { paused := true },
               req := { req with nofree := true, resent := true } }) := by
  constructor
  · intro json api_steamid lmid http req hte hbody htrig
    obtain ⟨te, bd, nf, rs⟩ := req
    dsimp only at hte hbody
    subst hte
    subst hbody
    unfold steam_api_cb_poll
    dsimp only
    rw [poll_cb_relogon api_steamid lmid json htrig]
    rfl
  · intro json http req hte hbody htrig
    obtain ⟨te, bd, nf, rs⟩ := req
    dsimp only at hte hbody
    subst hte
    subst hbody
    unfold steam_api_cb_message
    dsimp only
    rw [message_cb_relogon json htrig]
    rfl

/-- C1 witness: both parts of the relogon-trigger behaviour at the
concrete body whose error string is `"Not Logged On"`. -/
theorem relogon_trigger_spec_witness :
    relogon_trigger nlo_body = true ∧
    steam_api_cb_poll none 7 ⟨false⟩ { body := some nlo_body } =
      { tail := { err := some ⟨.LOGON_EXPIRED, "Polling: Logon session expired"⟩,
                  invoked := true, freed := false, flags := {} },
        http := { paused := true },
        req := { body := some nlo_body, nofree := true, resent := true },
        lmid := 7, msgs := [], summariesSent := false } ∧
    steam_api_cb_message ⟨false⟩ { body := some nlo_body } =
      some { tail := { err := some ⟨.LOGON_EXPIRED, "Message: Logon session expired"⟩,
                       invoked := true, freed := false, flags := {} },
             http := { paused := true },
             req := { body := some nlo_body, nofree := true, resent := true } } :=
  ⟨rfl,
   relogon_trigger_spec.1 nlo_body none 7 ⟨false⟩ { body := some nlo_body }
     rfl rfl rfl,
   relogon_trigger_spec.2 nlo_body ⟨false⟩ { body := some nlo_body }
     rfl rfl rfl⟩

theorem chatlog_go_eq (accid : Int) (l : List JVal) :
    ∀ (i : Nat) (acc : List SteamApiMessage),
    chatlog_go accid l i acc =
      acc.reverse ++
        ((l.enumFrom i).filter fun p => chatlog_entry_keep accid p.2).map
          (fun p => chatlog_entry_mesg p.2 p.1) := by
  induction l with
  | nil => intro i acc; simp [chatlog_go, List.enumFrom]
  | cons jv rest ih =>
      intro i acc
      unfold chatlog_go
      by_cases h : chatlog_entry_keep accid jv = true
      · rw [if_pos h, ih]
        simp [List.enumFrom, List.filter_cons, h]
      · rw [if_neg h, ih]
        simp [List.enumFrom, List.filter_cons, h]

/-- C8: for every chatlog response array, the produced message list is
exactly the entries that carry a sender account id different from the
session's own identity, in order (entries from the session's own
identity, and entries without a sender id, are excluded); and in the
concrete scenario of one own-identity entry and one other entry, only
the other entry is returned. -/
theorem chatlog_excludes_own :
    (∀ (entries : List JVal) (own : Option String),
      steam_api_chatlog_cb own (.jarr entries) =
        ((entries.enum.filter fun p =>
            chatlog_entry_keep (steam_api_accountid_str own) p.2).map
          fun p => chatlog_entry_mesg p.2 p.1)) ∧
    steam_api_chatlog_cb (some "76561197960265729")
        (.jarr [chatlog_own_entry, chatlog_other_entry]) =
      [chatlog_entry_mesg chatlog_other_entry 1] := by
  constructor
  · intro entries own
    unfold steam_api_chatlog_cb
    dsimp only
    rw [chatlog_go_eq]
    simp [List.enum]
  · rfl

theorem friends_go_eq (l : List JVal) :
    ∀ (i : Nat) (fr sums : List SteamFriendSummary),
    friends_go l i fr sums =
      ((((l.enumFrom i).filter fun p => friends_entry_keep p.2).map
          fun p => friends_entry_smry p.2 p.1).reverse ++ fr,
       (((l.enumFrom i).filter fun p => friends_entry_keep p.2).map
          fun p => friends_entry_smry p.2 p.1).reverse ++ sums) := by
  induction l with
  | nil => intro i fr sums; simp [friends_go, List.enumFrom]
  | cons je rest ih =>
      intro i fr sums
      unfold friends_go
      by_cases h : friends_entry_keep je = true
      · rw [if_pos h, ih]
        simp [List.enumFrom, List.filter_cons, h]
      · rw [if_neg h, ih]
        simp [List.enumFrom, List.filter_cons, h]

/-- C4 counterexample: a friends body listing the same identity
(`"1"`, relationship `"friend"`) twice yields two summaries with that
identity in the result list and two in the pending-enrichment list —
the parser does not deduplicate by identity id. -/
theorem friends_cb_no_dedup_cex :
    ((steam_api_friends_cb friends_dup_body).1.filter
      fun s => decide (s.steamid = some "1")).length = 2 ∧
    ((steam_api_friends_cb friends_dup_body).2.filter
      fun s => decide (s.steamid = some "1")).length = 2 :=
  ⟨rfl, rfl⟩

/-- C4 (amended): exactly the entries whose relationship string
case-insensitively equals `"friend"` or `"ignoredfriend"` and that
carry a steamid are kept; each kept entry (each array element) yields
one summary that appears once in the result list and is registered for
enrichment once, and the result list and the pending-summary list are
the same list of summary instances.  There is no per-identity
deduplication at parse time: an identity appearing in two kept entries
yields two summaries (deduplication happens only when the batch request
is later built). -/
theorem friends_cb_spec :
    (∀ json : JVal,
      (steam_api_friends_cb json).1 = (steam_api_friends_cb json).2) ∧
    (∀ (json : JVal) (l : List JVal),
      steam_json_arr json "friends" = some l →
      (steam_api_friends_cb json).1 =
        ((l.enum.filter fun p => friends_entry_keep p.2).map
          fun p => friends_entry_smry p.2 p.1).reverse) := by
  constructor
  · intro json
    unfold steam_api_friends_cb
    cases h : steam_json_arr json "friends" with
    | none => rfl
    | some l =>
        dsimp only
        rw [friends_go_eq]
  · intro json l hl
    unfold steam_api_friends_cb
    rw [hl]
    dsimp only
    rw [friends_go_eq]
    simp [List.enum]

/-- C4 witness: the characterization instantiated at the
duplicate-identity body. -/
theorem friends_cb_spec_witness :
    (steam_api_friends_cb friends_dup_body).1 =
      (([friends_dup_entry, friends_dup_entry].enum.filter
          fun p => friends_entry_keep p.2).map
        fun p => friends_entry_smry p.2 p.1).reverse :=
  friends_cb_spec.2 friends_dup_body [friends_dup_entry, friends_dup_entry] rfl

/-- C7: for every auth response, (i) a `captcha_gid` challenge id and
(ii) an `emailsteamid` confirmation id present in the body are recorded
on the credential module regardless of the success flag (hence even on
failure); (iii) the context reaches the success continuation (redirect
issued, no error) exactly when `success` is true and the embedded
`oauth` document re-parses and contains `oauth_token`; (iv) a missing
`oauth_token` after success yields the hard auth error
`"Failed to obtain OAuth token"`, (v) distinct from the default
authentication-rejected error; and (vi) the failure scenario
`success=false / captcha_needed=true / message="bad"` records no
challenge id and fails the call with the captcha-required auth error
carrying `"bad"`, prefixed with `"Authentication: "`. -/
theorem auth_cb_spec :
    (∀ (parse : String → Option JVal) (auth0 : SteamAuthState) (json : JVal)
       (s : String),
      steam_json_str json "captcha_gid" = some s →
      (steam_api_auth_cb parse auth0 json).auth.cgid = some s) ∧
    (∀ (parse : String → Option JVal) (auth0 : SteamAuthState) (json : JVal)
       (s : String),
      steam_json_str json "emailsteamid" = some s →
      (steam_api_auth_cb parse auth0 json).auth.esid = some s) ∧
    (∀ (parse : String → Option JVal) (auth0 : SteamAuthState) (json : JVal),
      ((steam_api_auth_cb parse auth0 json).rdir = true ∧
       (steam_api_auth_cb parse auth0 json).err = none) ↔
      (steam_json_bool json "success" = true ∧
       ∃ ostr j2 tok, steam_json_str json "oauth" = some ostr ∧
         parse ostr = some j2 ∧ steam_json_str j2 "oauth_token" = some tok)) ∧
    (∀ (parse : String → Option JVal) (auth0 : SteamAuthState) (json : JVal)
       (ostr : String) (j2 : JVal),
      steam_json_bool json "success" = true →
      steam_json_str json "oauth" = some ostr →
      parse ostr = some j2 →
      steam_json_str j2 "oauth_token" = none →
      (steam_api_auth_cb parse auth0 json).err =
        some ⟨.AUTH, "Failed to obtain OAuth token"⟩) ∧
    ((⟨.AUTH, "Failed to obtain OAuth token"⟩ : GErr) ≠
      ⟨.AUTH, "Failed to authenticate"⟩) ∧
    (steam_api_cb_auth (fun _ => none) {} { body := some auth_fail_body } =
      { tail := { err := some ⟨.AUTH_CAPTCHA, "Authentication: bad"⟩,
                  invoked := true, freed := true, flags := {} },
        auth := {}, token := none, rdirStarted := false }) := by
  refine ⟨?_, ?_, ?_, ?_, by decide, rfl⟩
  · intro parse auth0 json s h
    unfold steam_api_auth_cb
    rw [h]
    dsimp only
    cases h2 : steam_json_str json "emailsteamid" <;> dsimp only <;>
      split <;> try rfl
    all_goals (split <;> try rfl)
    all_goals (split <;> try rfl)
    all_goals (split <;> rfl)
  · intro parse auth0 json s h
    unfold steam_api_auth_cb
    rw [h]
    dsimp only
    cases h2 : steam_json_str json "captcha_gid" <;> dsimp only <;>
      split <;> try rfl
    all_goals (split <;> try rfl)
    all_goals (split <;> try rfl)
    all_goals (split <;> rfl)
  · intro parse auth0 json
    unfold steam_api_auth_cb
    by_cases hs : steam_json_bool json "success" = true
    · rw [if_neg (by simp [hs])]
      cases ho : steam_json_str json "oauth" with
      | none => simp [hs, ho]
      | some ostr =>
          cases hp : parse ostr with
          | none => simp [hs, ho, hp]
          | some j2 =>
              cases ht : steam_json_str j2 "oauth_token" with
              | none => simp [hs, ho, hp, ht]
              | some tok => simp [hs, ho, hp, ht]
    · rw [if_pos (by simp [hs])]
      simp [hs]
  · intro parse auth0 json ostr j2 hs ho hp ht
    unfold steam_api_auth_cb
    rw [if_neg (by simp [hs]), ho]
    dsimp only
    rw [hp]
    dsimp only
    rw [ht]

/-- C7 witness: challenge-id recording and the missing-token hard error
at concrete bodies. -/
theorem auth_cb_spec_witness :
    (steam_api_auth_cb (fun _ => none) {}
      (.jobj [("captcha_gid", .jstr "g1")])).auth.cgid = some "g1" ∧
    (steam_api_auth_cb (fun _ => none) {}
      (.jobj [("emailsteamid", .jstr "e1")])).auth.esid = some "e1" ∧
    (steam_api_auth_cb auth_parse_w {} auth_tokenless_body).err =
      some ⟨.AUTH, "Failed to obtain OAuth token"⟩ :=
  ⟨auth_cb_spec.1 (fun _ => none) {} (.jobj [("captcha_gid", .jstr "g1")])
     "g1" rfl,
   auth_cb_spec.2.1 (fun _ => none) {} (.jobj [("emailsteamid", .jstr "e1")])
     "e1" rfl,
   auth_cb_spec.2.2.2.1 auth_parse_w {} auth_tokenless_body "inner"
     (.jobj []) rfl rfl rfl rfl⟩

theorem summaries_batch_go_length (l : List String) :
    ∀ (acc : List String) (i : Nat), acc.length = i → i ≤ 99 →
    (summaries_batch_go l acc i).length ≤ 100 := by
  induction l with
  | nil =>
      intro acc i hl hi
      simp only [summaries_batch_go, List.length_reverse]
      omega
  | cons s rest ih =>
      intro acc i hl hi
      unfold summaries_batch_go
      by_cases hm : s ∈ acc
      · rw [if_pos hm]
        exact ih acc i hl hi
      · rw [if_neg hm]
        by_cases h100 : (i + 1) % 100 = 0
        · rw [if_pos h100]
          simp only [List.length_reverse, List.length_cons]
          omega
        · rw [if_neg h100]
          exact ih (s :: acc) (i + 1) (by simp [hl]) (by omega)

theorem summaries_batch_go_nodup (l : List String) :
    ∀ (acc : List String) (i : Nat), acc.Nodup →
    (summaries_batch_go l acc i).Nodup := by
  induction l with
  | nil =>
      intro acc i h
      simp only [summaries_batch_go, List.nodup_reverse]
      exact h
  | cons s rest ih =>
      intro acc i h
      unfold summaries_batch_go
      by_cases hm : s ∈ acc
      · rw [if_pos hm]
        exact ih acc i h
      · rw [if_neg hm]
        by_cases h100 : (i + 1) % 100 = 0
        · rw [if_pos h100]
          simp only [List.nodup_reverse, List.nodup_cons]
          exact ⟨hm, h⟩
        · rw [if_neg h100]
          exact ih (s :: acc) (i + 1) (List.nodup_cons.mpr ⟨hm, h⟩)

theorem summaries_batch_go_acc_mem (l : List String) :
    ∀ (acc : List String) (i : Nat) (x : String), x ∈ acc →
    x ∈ summaries_batch_go l acc i := by
  induction l with
  | nil =>
      intro acc i x hx
      simp only [summaries_batch_go, List.mem_reverse]
      exact hx
  | cons s rest ih =>
      intro acc i x hx
      unfold summaries_batch_go
      by_cases hm : s ∈ acc
      · rw [if_pos hm]
        exact ih acc i x hx
      · rw [if_neg hm]
        by_cases h100 : (i + 1) % 100 = 0
        · rw [if_pos h100]
          simp [hx]
        · rw [if_neg h100]
          exact ih (s :: acc) (i + 1) x (by simp [hx])

theorem summaries_batch_head_mem (a : String) (as : List String) :
    a ∈ summaries_batch (a :: as) := by
  unfold summaries_batch summaries_batch_go
  rw [if_neg (by simp)]
  rw [if_neg (by norm_num)]
  exact summaries_batch_go_acc_mem as [a] 1 a (by simp)

theorem summaries_batch_go_nodup_take (l : List String) :
    ∀ (acc : List String) (i : Nat), (∀ a ∈ l, a ∉ acc) → l.Nodup →
    acc.length = i → i ≤ 99 →
    summaries_batch_go l acc i = acc.reverse ++ l.take (100 - i) := by
  induction l with
  | nil => intro acc i _ _ hl hi; simp [summaries_batch_go]
  | cons s rest ih =>
      intro acc i hdisj hnd hl hi
      unfold summaries_batch_go
      have hm : s ∉ acc := hdisj s (by simp)
      rw [if_neg hm]
      by_cases h100 : (i + 1) % 100 = 0
      · rw [if_pos h100]
        have hi99 : i = 99 := by omega
        subst hi99
        norm_num
      · rw [if_neg h100]
        rw [ih (s :: acc) (i + 1)
          (fun a ha => by
            simp only [List.mem_cons]
            push_neg
            exact ⟨fun has => (List.nodup_cons.mp hnd).1 (has ▸ ha),
                   hdisj a (List.mem_cons_of_mem s ha)⟩)
          (List.nodup_cons.mp hnd).2 (by simp [hl]) (by omega)]
        have h1 : 100 - i = (100 - (i + 1)) + 1 := by omega
        rw [h1]
        simp [List.take_succ_cons]

theorem summaries_batch_nodup (l : List String) (h : l.Nodup) :
    summaries_batch l = l.take 100 := by
  unfold summaries_batch
  have := summaries_batch_go_nodup_take l [] 0 (by simp) h rfl (by omega)
  simpa using this

theorem filter_not_mem_take (l : List String) (h : l.Nodup) (n : Nat) :
    l.filter (fun s => decide (s ∉ l.take n)) = l.drop n := by
  have h1 : (l.take n).filter (fun s => decide (s ∉ l.take n)) = [] := by
    rw [List.filter_eq_nil_iff]
    intro a ha
    simp [ha]
  have h2 : (l.drop n).filter (fun s => decide (s ∉ l.take n)) = l.drop n := by
    rw [List.filter_eq_self]
    intro a ha
    have hnt : a ∉ l.take n :=
      fun hat => List.disjoint_take_drop h (Nat.le_refl n) hat ha
    simp [hnt]
  calc l.filter (fun s => decide (s ∉ l.take n))
      = (l.take n ++ l.drop n).filter (fun s => decide (s ∉ l.take n)) := by
        rw [List.take_append_drop]
    _ = l.drop n := by rw [List.filter_append, h1, h2]; simp

theorem summaries_requests_go_nil (fuel : Nat) :
    summaries_requests_go fuel [] = [] := by
  cases fuel with
  | zero => rfl
  | succ k => rfl

theorem summaries_requests_go_fuel : ∀ (f1 f2 : Nat) (l : List String),
    l.length ≤ f1 → l.length ≤ f2 →
    summaries_requests_go f1 l = summaries_requests_go f2 l := by
  intro f1
  induction f1 with
  | zero =>
      intro f2 l h1 _
      have hl : l = [] := List.length_eq_zero.mp (Nat.le_zero.mp h1)
      subst hl
      rw [summaries_requests_go_nil, summaries_requests_go_nil]
  | succ k ih =>
      intro f2 l h1 h2
      cases l with
      | nil => rw [summaries_requests_go_nil, summaries_requests_go_nil]
      | cons a as =>
          cases f2 with
          | zero => simp at h2
          | succ m =>
              unfold summaries_requests_go
              rw [if_neg (by simp), if_neg (by simp)]
              dsimp only
              congr 1
              have hmem : a ∈ summaries_batch (a :: as) :=
                summaries_batch_head_mem a as
              have hfe : (a :: as).filter
                  (fun s => decide (s ∉ summaries_batch (a :: as))) =
                  as.filter (fun s => decide (s ∉ summaries_batch (a :: as))) := by
                rw [List.filter_cons]
                simp [hmem]
              have hflen : ((a :: as).filter
                  (fun s => decide (s ∉ summaries_batch (a :: as)))).length
                  ≤ as.length := by
                rw [hfe]
                exact List.length_filter_le _ as
              have h1a : as.length ≤ k := by
                simp only [List.length_cons] at h1
                omega
              have h2a : as.length ≤ m := by
                simp only [List.length_cons] at h2
                omega
              exact ih m _ (le_trans hflen h1a) (le_trans hflen h2a)

theorem summaries_requests_step (l : List String) (h : l.Nodup)
    (hne : l ≠ []) :
    summaries_requests l = l.take 100 :: summaries_requests (l.drop 100) := by
  cases l with
  | nil => exact absurd rfl hne
  | cons a as =>
      unfold summaries_requests
      simp only [List.length_cons]
      rw [show summaries_requests_go (as.length + 1) (a :: as)
          = if (a :: as).isEmpty then []
            else
              let b := summaries_batch (a :: as)
              b :: summaries_requests_go as.length
                ((a :: as).filter (fun s => decide (s ∉ b))) from rfl]
      rw [if_neg (by simp)]
      dsimp only
      rw [summaries_batch_nodup _ h, filter_not_mem_take _ h 100]
      congr 1
      apply summaries_requests_go_fuel
      · simp only [List.length_drop, List.length_cons]
        omega
      · exact Nat.le_refl _

theorem summaries_requests_go_batches (fuel : Nat) :
    ∀ (l b : List String),
    b ∈ summaries_requests_go fuel l → b.length ≤ 100 ∧ b.Nodup := by
  induction fuel with
  | zero => intro l b hb; simp [summaries_requests_go] at hb
  | succ k ih =>
      intro l b hb
      unfold summaries_requests_go at hb
      by_cases he : l.isEmpty
      · rw [if_pos he] at hb
        simp at hb
      · rw [if_neg he] at hb
        dsimp only at hb
        rcases List.mem_cons.mp hb with hbe | h
        · subst hbe
          refine ⟨?_, ?_⟩
          · unfold summaries_batch
            exact summaries_batch_go_length l [] 0 rfl (by omega)
          · unfold summaries_batch
            exact summaries_batch_go_nodup l [] 0 List.nodup_nil
        · exact ih _ b h

/-- C3: every summaries batch request lists at most one hundred
identities and contains no duplicate identity; and, driven by each
summaries response re-triggering the next batch until the pending list
drains, a context with 250 pending distinct identities issues exactly
three requests, of 100, 100 and 50 identities. -/
theorem summaries_batching_spec :
    (∀ (pending b : List String),
      b ∈ summaries_requests pending → b.length ≤ 100 ∧ b.Nodup) ∧
    (∀ pending : List String, pending.Nodup → pending.length = 250 →
      (summaries_requests pending).map List.length = [100, 100, 50]) := by
  constructor
  · intro pending b hb
    exact summaries_requests_go_batches pending.length pending b hb
  · intro pending h hlen
    have hne1 : pending ≠ [] := by
      intro h0
      rw [h0] at hlen
      simp at hlen
    rw [summaries_requests_step pending h hne1]
    have h2 : (pending.drop 100).Nodup :=
      List.Nodup.sublist (List.drop_sublist 100 pending) h
    have hlen2 : (pending.drop 100).length = 150 := by
      simp [List.length_drop, hlen]
    have hne2 : pending.drop 100 ≠ [] := by
      intro h0
      rw [h0] at hlen2
      simp at hlen2
    rw [summaries_requests_step _ h2 hne2]
    have h3 : ((pending.drop 100).drop 100).Nodup :=
      List.Nodup.sublist (List.drop_sublist 100 _) h2
    have hlen3 : ((pending.drop 100).drop 100).length = 50 := by
      simp [List.length_drop, hlen]
    have hne3 : (pending.drop 100).drop 100 ≠ [] := by
      intro h0
      rw [h0] at hlen3
      simp at hlen3
    rw [summaries_requests_step _ h3 hne3]
    have hlen4 : (((pending.drop 100).drop 100).drop 100).length = 0 := by
      simp [List.length_drop, hlen]
    have h4 : ((pending.drop 100).drop 100).drop 100 = [] :=
      List.length_eq_zero.mp hlen4
    rw [h4]
    simp [List.length_take, List.length_drop, hlen, summaries_requests,
      summaries_requests_go]

/-- C3 witness: the batch shape at a concrete pending list of 250
distinct identities, and the per-batch bounds at a one-element pending
list. -/
theorem summaries_batching_spec_witness :
    (summaries_requests ((List.range 250).map
        (fun n => String.mk (List.replicate n 'a')))).map List.length
      = [100, 100, 50] ∧
    ((["x"] : List String).length ≤ 100 ∧ (["x"] : List String).Nodup) := by
  have hinj : Function.Injective (fun n => String.mk (List.replicate n 'a')) := by
    intro a b hab
    have h1 := congrArg String.data hab
    have h2 := congrArg List.length h1
    simpa using h2
  refine ⟨summaries_batching_spec.2 _ (List.Nodup.map hinj (List.nodup_range 250))
      (by simp), summaries_batching_spec.1 ["x"] ["x"] ?_⟩
  show ["x"] ∈ summaries_requests ["x"]
  simp [summaries_requests, summaries_requests_go, summaries_batch,
    summaries_batch_go]
